import Mathlib

/-!
Verification of the Auth0 bearer-token verification core of the
yt-mcp-remote repository (`src/utils/auth.py`).

The data model and the `verify_token` pipeline are embedded from the
source.  The two operations delegated to the PyJWT library
(`PyJWKClient.get_signing_key_from_jwt` and `jwt.decode`) are external
to the repository; they are modelled from the description of key
resolution and claim validation given in the spec (sections 4.1 and 4.2), with the exact
option set that `verify_token` passes at the call site.
-/

namespace YtMcp

/-- A public signing key from the JWKS document, keyed by key identifier. -/
structure SigningKey where
  kid : String
  key : String
  deriving DecidableEq, Repr

/-- The unverified JWT header: declared algorithm and key identifier. -/
structure Header where
  alg : String
  kid : String
  deriving DecidableEq, Repr

/-- The decoded JWT payload.  Each claim is optional: `none` models the
claim being absent from the token. -/
structure Payload where
  sub : Option String := none
  aud : Option String := none
  iss : Option String := none
  iat : Option Int := none
  exp : Option Int := none
  scope : Option String := none
  permissions : Option (List String) := none
  azp : Option String := none
  client_id : Option String := none
  deriving DecidableEq, Repr

/-- A presented bearer token: the raw string, its header and payload, and
whether its signature verifies against the resolved key under the declared
header algorithm (`sigOk` abstracts the cryptographic check). -/
structure Token where
  raw : String
  header : Header
  payload : Payload
  sigOk : Bool
  deriving DecidableEq, Repr

/-- The `AccessToken` model returned on success (from
`mcp.server.auth.provider`), with the fields `verify_token` fills in. -/
structure AccessToken where
  token : String
  client_id : String
  scopes : List String
  expires_at : Option Int
  resource : String
  deriving DecidableEq, Repr

/-- Configuration of `Auth0TokenVerifier` (fields set in `__init__`). -/
structure Auth0TokenVerifier where
  domain : String
  audience : String
  algorithms : List String
  deriving DecidableEq, Repr

/-- The issuer string built in the constructor from the domain: the
scheme https, the domain, and a trailing slash. -/
def Auth0TokenVerifier.issuer (v : Auth0TokenVerifier) : String :=
  "https://" ++ v.domain ++ "/"

/-- Algorithm defaulting in the constructor: the accepted set is the
given list, or the RS256 singleton via the Python or operator, which
falls through when the argument is None or the empty list (both falsy). -/
def Auth0TokenVerifier.make (domain audience : String)
    (algorithms : Option (List String)) : Auth0TokenVerifier :=
  { domain := domain
    audience := audience
    algorithms :=
      match algorithms with
      | some l => if l = [] then ["RS256"] else l
      | none => ["RS256"] }

/-- Errors raised inside the verification pipeline.  All of them are
caught by `verify_token` and collapsed to the uniform reject signal. -/
inductive JwtError where
  | pyJwkClientError
  | invalidAlgorithm
  | invalidSignature
  | immatureSignature
  | expiredSignature
  | invalidAudience
  | invalidIssuer
  deriving DecidableEq, Repr

/-- Find the key whose identifier matches, as PyJWKClient matches a kid
against the key-set document. -/
def matchKid (keys : List SigningKey) (kid : String) : Option SigningKey :=
  keys.find? (fun k => k.kid == kid)

/-- Result of key resolution together with the number of re-fetch
attempts of the key-set document performed during the call. -/
structure KeyFetchResult where
  result : Except JwtError SigningKey
  refetches : Nat
  deriving Repr

/-- Modelled from the spec: `PyJWKClient.get_signing_key_from_jwt`, the
Key Provider operation (spec section 4.1), is library code external to
the repository.  It reads the kid from the token header, serves the
key-set from cache (fetching it first when the cache is cold), and on a
kid miss performs exactly one refresh of the key-set document before
failing with a key-resolution error.  `remote` is the current content of
the key-set endpoint; `cache` is the cached key-set (`none` = cold). -/
def get_signing_key_from_jwt (remote : List SigningKey)
    (cache : Option (List SigningKey)) (kid : String) : KeyFetchResult :=
  let current :=
    match cache with
    | some cached => cached
    | none => remote
  match matchKid current kid with
  | some k => ⟨Except.ok k, 0⟩
  | none =>
    match matchKid remote kid with
    | some k => ⟨Except.ok k, 1⟩
    | none => ⟨Except.error JwtError.pyJwkClientError, 1⟩

/-- Algorithm check: the declared header algorithm is in the accepted
set passed as `algorithms=self.algorithms`. -/
def algOk (algorithms : List String) (tok : Token) : Bool :=
  algorithms.contains tok.header.alg

/-- Audience check (`verify_aud: True`, `audience=self.audience`): the
`aud` claim must be present and equal the configured audience. -/
def audOk (audience : String) (p : Payload) : Bool :=
  p.aud == some audience

/-- Issuer check (`verify_iss: True`, `issuer=self.issuer`): the `iss`
claim must be present and equal the configured issuer. -/
def issOk (issuer : String) (p : Payload) : Bool :=
  p.iss == some issuer

/-- Issued-at check (`verify_iat: True`): when the `iat` claim is
present it must not lie in the future beyond the clock-skew tolerance
`leeway`; an absent `iat` passes. -/
def iatOk (p : Payload) (now leeway : Int) : Bool :=
  match p.iat with
  | none => true
  | some t => decide (t ≤ now + leeway)

/-- Expiry check (`verify_exp: True`): when the `exp` claim is present
it must not lie in the past beyond the clock-skew tolerance `leeway`;
an absent `exp` passes. -/
def expOk (p : Payload) (now leeway : Int) : Bool :=
  match p.exp with
  | none => true
  | some t => decide (now - leeway < t)

/-- Modelled from the spec: `jwt.decode`, library code external to the
repository, called with
`options = {verify_signature, verify_aud, verify_iat, verify_exp,
verify_iss: True}` (spec section 4.2, steps 2-3).  It rejects a header
algorithm outside the accepted set before any signature use, then checks
the signature, then each claim; any single failure rejects the token. -/
def decode (tok : Token) (algorithms : List String)
    (audience issuer : String) (now leeway : Int) :
    Except JwtError Payload :=
  if ¬ algOk algorithms tok then Except.error JwtError.invalidAlgorithm
  else if ¬ tok.sigOk then Except.error JwtError.invalidSignature
  else if ¬ iatOk tok.payload now leeway then
    Except.error JwtError.immatureSignature
  else if ¬ expOk tok.payload now leeway then
    Except.error JwtError.expiredSignature
  else if ¬ audOk audience tok.payload then
    Except.error JwtError.invalidAudience
  else if ¬ issOk issuer tok.payload then
    Except.error JwtError.invalidIssuer
  else Except.ok tok.payload

/-- The Python string split method with no argument: split on runs of
whitespace and drop empty pieces, so the empty string splits to `[]`. -/
def splitWsAux : List Char → List Char → List String
  | [], acc => if acc.isEmpty then [] else [String.mk acc.reverse]
  | c :: cs, acc =>
    if c.isWhitespace then
      if acc.isEmpty then splitWsAux cs []
      else String.mk acc.reverse :: splitWsAux cs []
    else splitWsAux cs (c :: acc)

/-- Embeds the expression at line 103 of `auth.py`: the scope claim
string split with the Python no-argument split method. -/
def pySplit (s : String) : List String :=
  splitWsAux s.toList []

/-- Step 3 of `verify_token` (lines 101-107): scopes come from the
`scope` claim split on whitespace when that claim is present, else from
the `permissions` claim when present, else are empty. -/
def extractScopes (p : Payload) : List String :=
  match p.scope with
  | some s => pySplit s
  | none =>
    match p.permissions with
    | some ps => ps
    | none => []

/-- Embeds the client_id claim lookup with default unknown from
line 112 of `auth.py`. -/
def clientIdFallback (p : Payload) : String :=
  match p.client_id with
  | some c => c
  | none => "unknown"

/-- Embeds line 112 of `auth.py`: the azp claim, or via the Python or
operator the client_id claim with default unknown.  The Python or
operator falls through when azp is absent or the empty string (falsy). -/
def clientIdOf (p : Payload) : String :=
  match p.azp with
  | some a => if a = "" then clientIdFallback p else a
  | none => clientIdFallback p

/-- Outcome of one `verify_token` call, together with the number of
key-set re-fetch attempts the call performed. -/
structure VerifyOutcome where
  result : Option AccessToken
  refetches : Nat
  deriving Repr

/-- The method verify_token of Auth0TokenVerifier (lines 48-142 of
`auth.py`): resolve the
signing key (any failure is caught and returns `None`), decode and
verify the JWT (any failure is caught and returns `None`), then extract
scopes, resolve the client identifier, and build the `AccessToken`.
The enclosing `try`/`except` catches every remaining exception and also
returns `None`. -/
def verifyTokenFull (v : Auth0TokenVerifier) (remote : List SigningKey)
    (cache : Option (List SigningKey)) (tok : Token)
    (now leeway : Int) : VerifyOutcome :=
  let kf := get_signing_key_from_jwt remote cache tok.header.kid
  match kf.result with
  | Except.error _ => ⟨none, kf.refetches⟩
  | Except.ok _ =>
    match decode tok v.algorithms v.audience v.issuer now leeway with
    | Except.error _ => ⟨none, kf.refetches⟩
    | Except.ok payload =>
      ⟨some
        { token := tok.raw
          client_id := clientIdOf payload
          scopes := extractScopes payload
          expires_at := payload.exp
          resource := v.audience }, kf.refetches⟩

/-- The value `verify_token` returns to the caller: an `AccessToken` on
success, the uniform reject signal `none` on any failure. -/
def verify_token (v : Auth0TokenVerifier) (remote : List SigningKey)
    (cache : Option (List SigningKey)) (tok : Token)
    (now leeway : Int) : Option AccessToken :=
  (verifyTokenFull v remote cache tok now leeway).result

theorem decode_ok_iff (tok : Token) (algorithms : List String)
    (audience issuer : String) (now leeway : Int) (p : Payload) :
    decode tok algorithms audience issuer now leeway = Except.ok p ↔
      (algOk algorithms tok = true ∧ tok.sigOk = true ∧
       iatOk tok.payload now leeway = true ∧
       expOk tok.payload now leeway = true ∧
       audOk audience tok.payload = true ∧
       issOk issuer tok.payload = true ∧ p = tok.payload) := by
  unfold decode
  split_ifs with h1 h2 h3 h4 h5 h6 <;> simp_all
  exact eq_comm

theorem verify_token_eq_some_iff (v : Auth0TokenVerifier)
    (remote : List SigningKey) (cache : Option (List SigningKey))
    (tok : Token) (now leeway : Int) (a : AccessToken) :
    verify_token v remote cache tok now leeway = some a ↔
      ((∃ k, (get_signing_key_from_jwt remote cache tok.header.kid).result
          = Except.ok k) ∧
       decode tok v.algorithms v.audience v.issuer now leeway
          = Except.ok tok.payload ∧
       a = { token := tok.raw
             client_id := clientIdOf tok.payload
             scopes := extractScopes tok.payload
             expires_at := tok.payload.exp
             resource := v.audience }) := by
  unfold verify_token verifyTokenFull
  cases hk : (get_signing_key_from_jwt remote cache tok.header.kid).result with
  | error e => simp [hk]
  | ok k =>
    cases hd : decode tok v.algorithms v.audience v.issuer now leeway with
    | error e => simp [hk, hd]
    | ok p =>
      have hp : p = tok.payload :=
        ((decode_ok_iff tok v.algorithms v.audience v.issuer now leeway
          p).mp hd).2.2.2.2.2.2
      subst hp
      simp [hk, hd, eq_comm]

/-! ### Concrete fixtures used by the witnesses and counterexamples -/

/-- A signing key published under kid `k1`. -/
def keyW : SigningKey := ⟨"k1", "pem"⟩

/-- A stale signing key under kid `k0`, used as cached key-set content. -/
def keyOld : SigningKey := ⟨"k0", "old"⟩

/-- A verifier configured with domain `d`, audience `aud`, `RS256`. -/
def cfgW : Auth0TokenVerifier := ⟨"d", "aud", ["RS256"]⟩

/-- A payload whose every claim passes the checks of `cfgW` at time 0. -/
def payloadW : Payload :=
  { sub := some "s", aud := some "aud", iss := some "https://d/",
    iat := some 0, exp := some 100, scope := some "a b c",
    permissions := none, azp := some "X", client_id := some "Y" }

/-- A token `cfgW` accepts at time 0. -/
def tokW : Token := ⟨"t", ⟨"RS256", "k1"⟩, payloadW, true⟩

/-- The `AccessToken` that `verify_token` builds from `tokW`. -/
def atW : AccessToken := ⟨"t", "X", ["a", "b", "c"], some 100, "aud"⟩

/-- Like `tokW` but with header algorithm `none`. -/
def tokBadAlg : Token := ⟨"t", ⟨"none", "k1"⟩, payloadW, true⟩

/-- Like `tokW` but with a mismatched audience claim. -/
def tokBadAud : Token :=
  ⟨"t", ⟨"RS256", "k1"⟩, { payloadW with aud := some "other" }, true⟩

/-- Like `tokW` but already expired at time 0. -/
def tokExpired : Token :=
  ⟨"t", ⟨"RS256", "k1"⟩, { payloadW with exp := some (-5) }, true⟩

/-- Like `tokW` but with only a `permissions` claim for scopes. -/
def tokPerm : Token :=
  ⟨"t", ⟨"RS256", "k1"⟩,
   { payloadW with scope := none, permissions := some ["a", "b"] }, true⟩

/-- The `AccessToken` built from `tokPerm`. -/
def atPerm : AccessToken := ⟨"t", "X", ["a", "b"], some 100, "aud"⟩

/-- Like `tokW` but with no scope, azp or client_id claims. -/
def tokNeither : Token :=
  ⟨"t", ⟨"RS256", "k1"⟩,
   { payloadW with scope := none, azp := none, client_id := none }, true⟩

/-- The `AccessToken` built from `tokNeither`. -/
def atNeither : AccessToken := ⟨"t", "unknown", [], some 100, "aud"⟩

/-- Like `tokW` but with no azp claim. -/
def tokOnlyCid : Token :=
  ⟨"t", ⟨"RS256", "k1"⟩, { payloadW with azp := none }, true⟩

/-- The `AccessToken` built from `tokOnlyCid`. -/
def atOnlyCid : AccessToken := ⟨"t", "Y", ["a", "b", "c"], some 100, "aud"⟩

/-- Like `tokW` but with `azp` present as the empty string. -/
def tokEmptyAzp : Token :=
  ⟨"t", ⟨"RS256", "k1"⟩, { payloadW with azp := some "" }, true⟩

/-- The `AccessToken` built from `tokEmptyAzp`. -/
def atEmptyAzp : AccessToken := ⟨"t", "Y", ["a", "b", "c"], some 100, "aud"⟩

/-- Like `tokW` but with no `exp` claim. -/
def tokNoExp : Token :=
  ⟨"t", ⟨"RS256", "k1"⟩, { payloadW with exp := none }, true⟩

/-- Like `tokW` but referencing a kid absent from every key-set. -/
def tokUnknownKid : Token := ⟨"t", ⟨"RS256", "kX"⟩, payloadW, true⟩

/-- Like `tokW` but with an empty `scope` string and a `permissions`
claim. -/
def tokEmptyScope : Token :=
  ⟨"t", ⟨"RS256", "k1"⟩,
   { payloadW with scope := some "", permissions := some ["a"] }, true⟩

/-- The `AccessToken` built from `tokEmptyScope`. -/
def atEmptyScope : AccessToken := ⟨"t", "X", [], some 100, "aud"⟩

/-! ### Claim theorems -/

/-- C1: an `AccessToken` is returned by `verify_token` only if the
algorithm, signature, issued-at, expiry, audience and issuer checks have
all passed; no path reaches result construction with a check skipped or
failed. -/
theorem verify_token_all_checks_passed (v : Auth0TokenVerifier)
    (remote : List SigningKey) (cache : Option (List SigningKey))
    (tok : Token) (now leeway : Int) (a : AccessToken)
    (h : verify_token v remote cache tok now leeway = some a) :
    algOk v.algorithms tok = true ∧ tok.sigOk = true ∧
    iatOk tok.payload now leeway = true ∧
    expOk tok.payload now leeway = true ∧
    audOk v.audience tok.payload = true ∧
    issOk v.issuer tok.payload = true := by
  obtain ⟨-, hd, -⟩ :=
    (verify_token_eq_some_iff v remote cache tok now leeway a).mp h
  obtain ⟨h1, h2, h3, h4, h5, h6, -⟩ :=
    (decode_ok_iff tok v.algorithms v.audience v.issuer now leeway
      tok.payload).mp hd
  exact ⟨h1, h2, h3, h4, h5, h6⟩

/-- Witness for C1 at the concrete accepted token `tokW`. -/
theorem verify_token_all_checks_passed_witness :
    verify_token cfgW [keyW] (some [keyW]) tokW 0 0 = some atW ∧
    (algOk cfgW.algorithms tokW = true ∧ tokW.sigOk = true ∧
     iatOk tokW.payload 0 0 = true ∧ expOk tokW.payload 0 0 = true ∧
     audOk cfgW.audience tokW.payload = true ∧
     issOk cfgW.issuer tokW.payload = true) :=
  ⟨by decide,
   verify_token_all_checks_passed cfgW [keyW] (some [keyW]) tokW 0 0 atW
     (by decide)⟩

/-- C2: a token whose header declares an algorithm outside the accepted
set is rejected regardless of signature validity, and the default
accepted set is the single algorithm RS256. -/
theorem verify_token_rejects_unlisted_algorithm (v : Auth0TokenVerifier)
    (remote : List SigningKey) (cache : Option (List SigningKey))
    (tok : Token) (now leeway : Int)
    (h : tok.header.alg ∉ v.algorithms) :
    verify_token v remote cache tok now leeway = none ∧
    ∀ d a, (Auth0TokenVerifier.make d a none).algorithms = ["RS256"] := by
  constructor
  · cases hv : verify_token v remote cache tok now leeway with
    | none => rfl
    | some a =>
      exfalso
      obtain ⟨-, hd, -⟩ :=
        (verify_token_eq_some_iff v remote cache tok now leeway a).mp hv
      have halg := ((decode_ok_iff tok v.algorithms v.audience v.issuer
        now leeway tok.payload).mp hd).1
      simp [algOk] at halg
      exact h halg
  · intro d a
    rfl

/-- Witness for C2: the `none` algorithm with a valid signature is
rejected under the default configuration. -/
theorem verify_token_rejects_unlisted_algorithm_witness :
    tokBadAlg.header.alg ∉ cfgW.algorithms ∧ tokBadAlg.sigOk = true ∧
    verify_token cfgW [keyW] (some [keyW]) tokBadAlg 0 0 = none ∧
    (Auth0TokenVerifier.make "d" "aud" none).algorithms = ["RS256"] := by
  refine ⟨by decide, by decide, ?_, ?_⟩
  · exact (verify_token_rejects_unlisted_algorithm cfgW [keyW]
      (some [keyW]) tokBadAlg 0 0 (by decide)).1
  · exact (verify_token_rejects_unlisted_algorithm cfgW [keyW]
      (some [keyW]) tokBadAlg 0 0 (by decide)).2 "d" "aud"

/-- C3: every accepted token has audience claim exactly the configured
audience and issuer claim exactly `https://{domain}/`; an audience
mismatch is rejected regardless of signature validity. -/
theorem verify_token_audience_issuer_exact (v : Auth0TokenVerifier)
    (remote : List SigningKey) (cache : Option (List SigningKey))
    (tok : Token) (now leeway : Int) :
    (∀ a, verify_token v remote cache tok now leeway = some a →
       tok.payload.aud = some v.audience ∧
       tok.payload.iss = some ("https://" ++ v.domain ++ "/")) ∧
    (tok.payload.aud ≠ some v.audience →
       verify_token v remote cache tok now leeway = none) := by
  constructor
  · intro a ha
    obtain ⟨-, hd, -⟩ :=
      (verify_token_eq_some_iff v remote cache tok now leeway a).mp ha
    obtain ⟨-, -, -, -, h5, h6, -⟩ := (decode_ok_iff tok v.algorithms
      v.audience v.issuer now leeway tok.payload).mp hd
    refine ⟨by simpa [audOk] using h5, ?_⟩
    have hiss : tok.payload.iss = some v.issuer := by simpa [issOk] using h6
    simpa [Auth0TokenVerifier.issuer] using hiss
  · intro hne
    cases hv : verify_token v remote cache tok now leeway with
    | none => rfl
    | some a =>
      exfalso
      obtain ⟨-, hd, -⟩ :=
        (verify_token_eq_some_iff v remote cache tok now leeway a).mp hv
      have h5 := ((decode_ok_iff tok v.algorithms v.audience v.issuer
        now leeway tok.payload).mp hd).2.2.2.2.1
      simp [audOk] at h5
      exact hne h5

/-- Witness for C3: `tokW` is accepted with matching audience and
issuer; `tokBadAud`, whose audience differs, is rejected even though its
signature is valid. -/
theorem verify_token_audience_issuer_exact_witness :
    (verify_token cfgW [keyW] (some [keyW]) tokW 0 0 = some atW ∧
     tokW.payload.aud = some cfgW.audience ∧
     tokW.payload.iss = some ("https://" ++ cfgW.domain ++ "/")) ∧
    (tokBadAud.payload.aud ≠ some cfgW.audience ∧ tokBadAud.sigOk = true ∧
     verify_token cfgW [keyW] (some [keyW]) tokBadAud 0 0 = none) := by
  constructor
  · refine ⟨by decide, ?_⟩
    exact (verify_token_audience_issuer_exact cfgW [keyW] (some [keyW])
      tokW 0 0).1 atW (by decide)
  · refine ⟨by decide, by decide, ?_⟩
    exact (verify_token_audience_issuer_exact cfgW [keyW] (some [keyW])
      tokBadAud 0 0).2 (by decide)

/-- C4: a token whose `exp` lies in the past beyond the clock-skew
tolerance is rejected; a token whose `exp` lies sufficiently in the
future and whose key resolves and whose other checks all pass is
accepted. -/
theorem verify_token_expiry (v : Auth0TokenVerifier)
    (remote : List SigningKey) (cache : Option (List SigningKey))
    (tok : Token) (now leeway : Int) :
    (∀ e, tok.payload.exp = some e → e ≤ now - leeway →
       verify_token v remote cache tok now leeway = none) ∧
    (∀ e k, tok.payload.exp = some e → now - leeway < e →
       (get_signing_key_from_jwt remote cache tok.header.kid).result
         = Except.ok k →
       algOk v.algorithms tok = true → tok.sigOk = true →
       iatOk tok.payload now leeway = true →
       audOk v.audience tok.payload = true →
       issOk v.issuer tok.payload = true →
       ∃ a, verify_token v remote cache tok now leeway = some a) := by
  constructor
  · intro e he hle
    cases hv : verify_token v remote cache tok now leeway with
    | none => rfl
    | some a =>
      exfalso
      obtain ⟨-, hd, -⟩ :=
        (verify_token_eq_some_iff v remote cache tok now leeway a).mp hv
      have h4 := ((decode_ok_iff tok v.algorithms v.audience v.issuer
        now leeway tok.payload).mp hd).2.2.2.1
      simp [expOk, he] at h4
      omega
  · intro e k he hlt hk h1 h2 h3 h5 h6
    refine ⟨_, (verify_token_eq_some_iff v remote cache tok now leeway
      _).mpr ⟨⟨k, hk⟩, ?_, rfl⟩⟩
    refine (decode_ok_iff tok v.algorithms v.audience v.issuer now leeway
      tok.payload).mpr ⟨h1, h2, h3, ?_, h5, h6, rfl⟩
    simp [expOk, he]
    omega

/-- Witness for C4: `tokExpired` (expired at time 0) is rejected and
`tokW` (expiring at 100) is accepted. -/
theorem verify_token_expiry_witness :
    (tokExpired.payload.exp = some (-5) ∧ (-5 : Int) ≤ 0 - 0 ∧
     verify_token cfgW [keyW] (some [keyW]) tokExpired 0 0 = none) ∧
    (tokW.payload.exp = some 100 ∧ (0 : Int) - 0 < 100 ∧
     ∃ a, verify_token cfgW [keyW] (some [keyW]) tokW 0 0 = some a) := by
  constructor
  · exact ⟨rfl, by decide, (verify_token_expiry cfgW [keyW] (some [keyW])
      tokExpired 0 0).1 (-5) rfl (by decide)⟩
  · exact ⟨rfl, by decide, (verify_token_expiry cfgW [keyW] (some [keyW])
      tokW 0 0).2 100 keyW rfl (by decide) rfl (by decide) rfl (by decide)
      (by decide) (by decide)⟩

/-- C5: `verify_token` is total with codomain `Option AccessToken`;
every key-resolution failure and every decode/verification failure,
whatever its cause, is converted to the same reject signal `none`. -/
theorem verify_token_uniform_reject (v : Auth0TokenVerifier)
    (remote : List SigningKey) (cache : Option (List SigningKey))
    (tok : Token) (now leeway : Int) :
    (∀ e, (get_signing_key_from_jwt remote cache tok.header.kid).result
        = Except.error e →
       verify_token v remote cache tok now leeway = none) ∧
    (∀ e, decode tok v.algorithms v.audience v.issuer now leeway
        = Except.error e →
       verify_token v remote cache tok now leeway = none) ∧
    (verify_token v remote cache tok now leeway = none ∨
     ∃ a, verify_token v remote cache tok now leeway = some a) := by
  refine ⟨?_, ?_, ?_⟩
  · intro e he
    unfold verify_token verifyTokenFull
    simp [he]
  · intro e he
    unfold verify_token verifyTokenFull
    cases hk : (get_signing_key_from_jwt remote cache tok.header.kid).result with
    | error e2 => simp [hk]
    | ok k => simp [hk, he]
  · cases hv : verify_token v remote cache tok now leeway with
    | none => exact Or.inl rfl
    | some a => exact Or.inr ⟨a, rfl⟩

/-- Witness for C5: a key-resolution failure (unknown kid) yields the
uniform reject signal. -/
theorem verify_token_uniform_reject_witness :
    (get_signing_key_from_jwt [keyW] (some [keyW])
      tokUnknownKid.header.kid).result
      = Except.error JwtError.pyJwkClientError ∧
    verify_token cfgW [keyW] (some [keyW]) tokUnknownKid 0 0 = none :=
  ⟨rfl, (verify_token_uniform_reject cfgW [keyW] (some [keyW])
    tokUnknownKid 0 0).1 JwtError.pyJwkClientError rfl⟩


/-- C6: for every accepted token, the granted scopes are the
whitespace-split of the `scope` claim when present, else the
`permissions` list when present, else empty. -/
theorem verify_token_scope_extraction (v : Auth0TokenVerifier)
    (remote : List SigningKey) (cache : Option (List SigningKey))
    (tok : Token) (now leeway : Int) (a : AccessToken)
    (h : verify_token v remote cache tok now leeway = some a) :
    (∀ s, tok.payload.scope = some s → a.scopes = pySplit s) ∧
    (tok.payload.scope = none →
      (∀ ps, tok.payload.permissions = some ps → a.scopes = ps) ∧
      (tok.payload.permissions = none → a.scopes = [])) := by
  obtain ⟨-, -, ha⟩ :=
    (verify_token_eq_some_iff v remote cache tok now leeway a).mp h
  subst ha
  refine ⟨?_, ?_⟩
  · intro s hs
    simp [extractScopes, hs]
  · intro hs
    refine ⟨?_, ?_⟩
    · intro ps hp
      simp [extractScopes, hs, hp]
    · intro hp
      simp [extractScopes, hs, hp]

/-- Witness for C6: scope `"a b c"` yields `["a","b","c"]`;
`permissions ["a","b"]` with no scope claim yields `["a","b"]`; neither
claim yields `[]`. -/
theorem verify_token_scope_extraction_witness :
    (verify_token cfgW [keyW] (some [keyW]) tokW 0 0 = some atW ∧
     tokW.payload.scope = some "a b c" ∧ atW.scopes = pySplit "a b c" ∧
     pySplit "a b c" = ["a", "b", "c"]) ∧
    (verify_token cfgW [keyW] (some [keyW]) tokPerm 0 0 = some atPerm ∧
     tokPerm.payload.scope = none ∧
     tokPerm.payload.permissions = some ["a", "b"] ∧
     atPerm.scopes = ["a", "b"]) ∧
    (verify_token cfgW [keyW] (some [keyW]) tokNeither 0 0 = some atNeither ∧
     tokNeither.payload.scope = none ∧
     tokNeither.payload.permissions = none ∧ atNeither.scopes = []) := by
  refine ⟨⟨by decide, rfl, ?_, by decide⟩, ⟨by decide, rfl, rfl, ?_⟩,
    ⟨by decide, rfl, rfl, ?_⟩⟩
  · exact (verify_token_scope_extraction cfgW [keyW] (some [keyW])
      tokW 0 0 atW (by decide)).1 "a b c" rfl
  · exact ((verify_token_scope_extraction cfgW [keyW] (some [keyW])
      tokPerm 0 0 atPerm (by decide)).2 rfl).1 ["a", "b"] rfl
  · exact ((verify_token_scope_extraction cfgW [keyW] (some [keyW])
      tokNeither 0 0 atNeither (by decide)).2 rfl).2 rfl

/-- C7 counterexample: a token with `azp` present (as the empty string)
and `client_id: "Y"` is accepted with client identifier `"Y"`, not the
value of the present `azp` claim — the Python or operator skips a
falsy `azp`. -/
theorem verify_token_client_id_azp_counterexample :
    tokEmptyAzp.payload.azp = some "" ∧
    verify_token cfgW [keyW] (some [keyW]) tokEmptyAzp 0 0
      = some atEmptyAzp ∧
    atEmptyAzp.client_id = "Y" ∧ ¬ atEmptyAzp.client_id = "" := by
  refine ⟨rfl, by decide, rfl, by decide⟩

/-- C7 (amended): the client identifier is the `azp` claim when present
and non-empty, else the `client_id` claim when present, else
`"unknown"`. -/
theorem verify_token_client_id_resolution (v : Auth0TokenVerifier)
    (remote : List SigningKey) (cache : Option (List SigningKey))
    (tok : Token) (now leeway : Int) (a : AccessToken)
    (h : verify_token v remote cache tok now leeway = some a) :
    (∀ z, tok.payload.azp = some z → z ≠ "" → a.client_id = z) ∧
    ((tok.payload.azp = none ∨ tok.payload.azp = some "") →
      (∀ c, tok.payload.client_id = some c → a.client_id = c) ∧
      (tok.payload.client_id = none → a.client_id = "unknown")) := by
  obtain ⟨-, -, ha⟩ :=
    (verify_token_eq_some_iff v remote cache tok now leeway a).mp h
  subst ha
  refine ⟨?_, ?_⟩
  · intro z hz hne
    simp [clientIdOf, hz, hne]
  · intro hz
    refine ⟨?_, ?_⟩
    · intro c hc
      rcases hz with hz | hz <;> simp [clientIdOf, clientIdFallback, hz, hc]
    · intro hc
      rcases hz with hz | hz <;> simp [clientIdOf, clientIdFallback, hz, hc]

/-- Witness for C7 (amended): `azp "X"` with `client_id "Y"` yields
`"X"`; only `client_id "Y"` yields `"Y"`; neither yields `"unknown"`. -/
theorem verify_token_client_id_resolution_witness :
    (verify_token cfgW [keyW] (some [keyW]) tokW 0 0 = some atW ∧
     tokW.payload.azp = some "X" ∧ atW.client_id = "X") ∧
    (verify_token cfgW [keyW] (some [keyW]) tokOnlyCid 0 0
       = some atOnlyCid ∧
     tokOnlyCid.payload.azp = none ∧
     tokOnlyCid.payload.client_id = some "Y" ∧
     atOnlyCid.client_id = "Y") ∧
    (verify_token cfgW [keyW] (some [keyW]) tokNeither 0 0
       = some atNeither ∧
     tokNeither.payload.azp = none ∧ tokNeither.payload.client_id = none ∧
     atNeither.client_id = "unknown") := by
  refine ⟨⟨by decide, rfl, ?_⟩, ⟨by decide, rfl, rfl, ?_⟩,
    ⟨by decide, rfl, rfl, ?_⟩⟩
  · exact (verify_token_client_id_resolution cfgW [keyW] (some [keyW])
      tokW 0 0 atW (by decide)).1 "X" rfl (by decide)
  · exact ((verify_token_client_id_resolution cfgW [keyW] (some [keyW])
      tokOnlyCid 0 0 atOnlyCid (by decide)).2 (Or.inl rfl)).1 "Y" rfl
  · exact ((verify_token_client_id_resolution cfgW [keyW] (some [keyW])
      tokNeither 0 0 atNeither (by decide)).2 (Or.inl rfl)).2 rfl

/-- Refetch count and failure condition of key resolution. -/
theorem gskfj_spec (remote : List SigningKey)
    (cache : Option (List SigningKey)) (kid : String) :
    (get_signing_key_from_jwt remote cache kid).refetches ≤ 1 ∧
    (matchKid remote kid = none →
     (∀ ks, cache = some ks → matchKid ks kid = none) →
     (get_signing_key_from_jwt remote cache kid).result
       = Except.error JwtError.pyJwkClientError) := by
  unfold get_signing_key_from_jwt
  cases cache with
  | none =>
    cases hm : matchKid remote kid with
    | some k => simp [hm]
    | none => simp [hm]
  | some ks =>
    cases hm : matchKid ks kid with
    | some k =>
      refine ⟨by simp [hm], ?_⟩
      intro hr hc
      exact absurd hm (by simp [hc ks rfl])
    | none =>
      cases hr : matchKid remote kid with
      | some k => simp [hm, hr]
      | none => simp [hm, hr]

/-- The refetch count of a `verify_token` call is that of its key
resolution step. -/
theorem verifyTokenFull_refetches (v : Auth0TokenVerifier)
    (remote : List SigningKey) (cache : Option (List SigningKey))
    (tok : Token) (now leeway : Int) :
    (verifyTokenFull v remote cache tok now leeway).refetches
      = (get_signing_key_from_jwt remote cache tok.header.kid).refetches := by
  unfold verifyTokenFull
  cases hk : (get_signing_key_from_jwt remote cache tok.header.kid).result with
  | error e => simp [hk]
  | ok k =>
    cases hd : decode tok v.algorithms v.audience v.issuer now leeway with
    | error e => simp [hk, hd]
    | ok p => simp [hk, hd]

/-- C8 counterexample: the kid `k1` of `tokW` is absent from the cached
key-set `[keyOld]`, yet `verify_token` does not reject — the single
refetch finds `k1` in the remote key-set and the token is accepted. -/
theorem verify_token_refetch_counterexample :
    matchKid [keyOld] tokW.header.kid = none ∧
    verify_token cfgW [keyW] (some [keyOld]) tokW 0 0 = some atW := by
  exact ⟨rfl, by decide⟩

/-- C8 (amended): every `verify_token` call performs at most one refetch
of the key-set document, and a token whose kid is absent from the cached
key-set and from the refetched key-set document is rejected. -/
theorem verify_token_refetch_bound (v : Auth0TokenVerifier)
    (remote : List SigningKey) (cache : Option (List SigningKey))
    (tok : Token) (now leeway : Int) :
    (verifyTokenFull v remote cache tok now leeway).refetches ≤ 1 ∧
    (matchKid remote tok.header.kid = none →
     (∀ ks, cache = some ks → matchKid ks tok.header.kid = none) →
     verify_token v remote cache tok now leeway = none) := by
  constructor
  · rw [verifyTokenFull_refetches]
    exact (gskfj_spec remote cache tok.header.kid).1
  · intro h1 h2
    have he := (gskfj_spec remote cache tok.header.kid).2 h1 h2
    unfold verify_token verifyTokenFull
    simp [he]

/-- Witness for C8 (amended): a kid absent everywhere is rejected with
at most one refetch. -/
theorem verify_token_refetch_bound_witness :
    matchKid [] tokUnknownKid.header.kid = none ∧
    (verifyTokenFull cfgW [] (some [keyOld]) tokUnknownKid 0 0).refetches
      ≤ 1 ∧
    verify_token cfgW [] (some [keyOld]) tokUnknownKid 0 0 = none := by
  refine ⟨rfl, ?_, ?_⟩
  · exact (verify_token_refetch_bound cfgW [] (some [keyOld])
      tokUnknownKid 0 0).1
  · refine (verify_token_refetch_bound cfgW [] (some [keyOld])
      tokUnknownKid 0 0).2 rfl ?_
    intro ks hks
    injection hks with h
    subst h
    rfl

/-- C9: the `expires_at` of every returned `AccessToken` equals the
own `exp` claim of the token, and a token lacking `exp` can still be accepted
(with `expires_at = none`) when its key resolves and every other check
passes. -/
theorem verify_token_expires_at_eq_exp (v : Auth0TokenVerifier)
    (remote : List SigningKey) (cache : Option (List SigningKey))
    (tok : Token) (now leeway : Int) :
    (∀ a, verify_token v remote cache tok now leeway = some a →
       a.expires_at = tok.payload.exp) ∧
    (tok.payload.exp = none →
     ∀ k, (get_signing_key_from_jwt remote cache tok.header.kid).result
         = Except.ok k →
       algOk v.algorithms tok = true → tok.sigOk = true →
       iatOk tok.payload now leeway = true →
       audOk v.audience tok.payload = true →
       issOk v.issuer tok.payload = true →
       ∃ a, verify_token v remote cache tok now leeway = some a ∧
            a.expires_at = none) := by
  constructor
  · intro a ha
    obtain ⟨-, -, haa⟩ :=
      (verify_token_eq_some_iff v remote cache tok now leeway a).mp ha
    subst haa
    rfl
  · intro hexp k hk h1 h2 h3 h5 h6
    refine ⟨_, (verify_token_eq_some_iff v remote cache tok now leeway
      _).mpr ⟨⟨k, hk⟩, ?_, rfl⟩, ?_⟩
    · refine (decode_ok_iff tok v.algorithms v.audience v.issuer now
        leeway tok.payload).mpr ⟨h1, h2, h3, ?_, h5, h6, rfl⟩
      simp [expOk, hexp]
    · exact hexp

/-- Witness for C9: `atW.expires_at` equals the `exp` of `tokW`, and
`tokNoExp` (no `exp` claim) is accepted with `expires_at = none`. -/
theorem verify_token_expires_at_eq_exp_witness :
    (verify_token cfgW [keyW] (some [keyW]) tokW 0 0 = some atW ∧
     atW.expires_at = tokW.payload.exp) ∧
    (tokNoExp.payload.exp = none ∧
     ∃ a, verify_token cfgW [keyW] (some [keyW]) tokNoExp 0 0 = some a ∧
          a.expires_at = none) := by
  constructor
  · refine ⟨by decide, ?_⟩
    exact (verify_token_expires_at_eq_exp cfgW [keyW] (some [keyW])
      tokW 0 0).1 atW (by decide)
  · refine ⟨rfl, ?_⟩
    exact (verify_token_expires_at_eq_exp cfgW [keyW] (some [keyW])
      tokNoExp 0 0).2 rfl keyW rfl (by decide) rfl (by decide) (by decide)
      (by decide)

/-- C10: when the `scope` claim is present the `permissions` claim is
never consulted, even when `scope` is the empty string, which yields
zero granted scopes. -/
theorem verify_token_scope_shadows_permissions (v : Auth0TokenVerifier)
    (remote : List SigningKey) (cache : Option (List SigningKey))
    (tok : Token) (now leeway : Int) (a : AccessToken) (s : String)
    (h : verify_token v remote cache tok now leeway = some a)
    (hs : tok.payload.scope = some s) :
    a.scopes = pySplit s ∧ (s = "" → a.scopes = []) := by
  obtain ⟨-, -, ha⟩ :=
    (verify_token_eq_some_iff v remote cache tok now leeway a).mp h
  subst ha
  constructor
  · simp [extractScopes, hs]
  · intro hse
    subst hse
    simp [extractScopes, hs]
    decide

/-- Witness for C10: scope `""` with permissions `["a"]` yields zero
scopes, not `["a"]`. -/
theorem verify_token_scope_shadows_permissions_witness :
    verify_token cfgW [keyW] (some [keyW]) tokEmptyScope 0 0
      = some atEmptyScope ∧
    tokEmptyScope.payload.scope = some "" ∧
    tokEmptyScope.payload.permissions = some ["a"] ∧
    atEmptyScope.scopes = [] ∧ atEmptyScope.scopes ≠ ["a"] := by
  refine ⟨by decide, rfl, rfl, ?_, by decide⟩
  exact (verify_token_scope_shadows_permissions cfgW [keyW] (some [keyW])
    tokEmptyScope 0 0 atEmptyScope "" (by decide) rfl).2 rfl


end YtMcp
